import Mathlib

/-!
# Verification of `objc-stub-fixer.py`

A shallow embedding of the Objective-C stub fixer script and proofs about it.

Modelling conventions:
* Python `str` values are Lean `String`s; the character-level operations the
  script uses (`split`, `strip`, slicing, `startswith`) are modelled on
  `List Char` (obtained through `String.data`), with `pySplit`, `pyStrip`,
  `List.drop`, `pyStartswith` mirroring Python semantics.
* `int(s, 16)` is modelled by `pyIntHex`, which accepts surrounding
  whitespace, an optional sign, an optional `0x`/`0X` tag, and hexadecimal
  digits with single underscores between digits, returning `none` where
  Python raises `ValueError`.
* Host (Hopper) API calls that can come back empty are modelled with
  `Option`: `getInstructionAtAddress` yields `none` for an undecodable
  address, `getFormattedArgument` yields `none` for an out-of-range operand
  index (the script itself wraps one such call in `str(...)`, evidence that
  the host returns `None` there), and `readUInt64LE` yields `none` for a
  failed read.
* A Python exception that the script does not catch is modelled explicitly:
  `Except` for `get_page_address` (whose `except ValueError` clause does not
  cover the `TypeError` arising from slicing `None`), and the `PyOutcome`
  and `ScanOutcome` results further up.
* The unbounded `while True` loop of `read_c_string` is modelled with fuel:
  `none` means the loop is still running after that many iterations.
* `bytearray.decode()` is modelled by `pyDecode`, one character per byte;
  this is exact for the ASCII range, the only range exercised here.
-/

/-- Python whitespace for `str.strip()` (ASCII part, which is all the
operand texts here can contain). -/
def isPySpace (c : Char) : Bool :=
  c = ' ' || c = '\t' || c = '\n' || c = '\r' || c = '\x0b' || c = '\x0c'

/-- Python `s.split(sep)` for a one-character separator: splits at every
occurrence, keeping empty parts, so the result is always nonempty. -/
def pySplit (sep : Char) : List Char → List (List Char)
  | [] => [[]]
  | c :: rest =>
    match pySplit sep rest with
    | [] => [[c]]
    | p :: ps => if c = sep then [] :: p :: ps else (c :: p) :: ps

/-- Python `s.strip()`: drop whitespace from both ends. -/
def pyStrip (l : List Char) : List Char :=
  ((l.dropWhile isPySpace).reverse.dropWhile isPySpace).reverse

/-- Hexadecimal digit recognizer for `int(_, 16)`. -/
def isHexDigitChar (c : Char) : Bool :=
  c.isDigit || ('a' ≤ c && c ≤ 'f') || ('A' ≤ c && c ≤ 'F')

/-- Value of a hexadecimal digit. -/
def hexDigitVal (c : Char) : Nat :=
  if c.isDigit then c.toNat - 48
  else if 'a' ≤ c && c ≤ 'f' then c.toNat - 87
  else if 'A' ≤ c && c ≤ 'F' then c.toNat - 55
  else 0

/-- Digit loop of `int(_, 16)`: after a first digit, each further digit may
be preceded by a single underscore (Python's numeric-literal rule). -/
def pyHexLoop (acc : Nat) : List Char → Option Nat
  | [] => some acc
  | '_' :: c :: rest =>
    if isHexDigitChar c then pyHexLoop (acc * 16 + hexDigitVal c) rest else none
  | ['_'] => none
  | c :: rest =>
    if isHexDigitChar c then pyHexLoop (acc * 16 + hexDigitVal c) rest else none

/-- A nonempty underscore-separated hexadecimal digit group. -/
def pyHexDigits : List Char → Option Nat
  | [] => none
  | c :: rest => if isHexDigitChar c then pyHexLoop (hexDigitVal c) rest else none

/-- After the optional `0x` tag Python allows one leading underscore. -/
def pyHexAfterTag : List Char → Option Nat
  | '_' :: rest => pyHexDigits rest
  | l => pyHexDigits l

/-- Optional `0x`/`0X` tag, then digits. -/
def pyHexBody : List Char → Option Nat
  | '0' :: 'x' :: rest => pyHexAfterTag rest
  | '0' :: 'X' :: rest => pyHexAfterTag rest
  | l => pyHexDigits l

/-- Python `int(s, 16)`: `none` where Python raises `ValueError`. -/
def pyIntHex (l : List Char) : Option Int :=
  match pyStrip l with
  | '+' :: rest => (pyHexBody rest).map (fun n => (n : Int))
  | '-' :: rest => (pyHexBody rest).map (fun n => -(n : Int))
  | rest => (pyHexBody rest).map (fun n => (n : Int))

/-- Python `s.startswith(pre)`. -/
def pyStartswith (s pre : List Char) : Bool :=
  pre.isPrefixOf s

/-- Python `str(x)` applied to an `Optional[str]`: `str(None) = "None"`. -/
def pyStr : Option String → String
  | some s => s
  | none => "None"

/-- `bytearray.decode()`, one character per byte (exact on ASCII). -/
def pyDecode (bs : List Nat) : String :=
  String.mk (bs.map Char.ofNat)

/-- `read_c_string` (lines 4–15): read bytes at increasing addresses until a
zero byte, which is not included.  The source loop is `while True` with no
cap; the extra `fuel` argument makes the model total, with `none` meaning
the loop has not terminated within `fuel` iterations. -/
def read_c_string (mem : Nat → Nat) (address : Nat) : Nat → Option (List Nat)
  | 0 => none
  | fuel + 1 =>
    if mem address = 0 then some []
    else (read_c_string mem (address + 1) fuel).map (fun r => mem address :: r)

/-- A decoded instruction: its rendered text (`getInstructionString`) and
its formatted operand strings (`getFormattedArgument`). -/
structure Instruction where
  instructionString : String
  formattedArgs : List String
deriving DecidableEq

/-- `Instruction.getFormattedArgument(i)`: `none` models the host returning
`None` for an out-of-range operand index. -/
def Instruction.getFormattedArgument (inst : Instruction) (i : Nat) : Option String :=
  inst.formattedArgs.get? i

/-- The host document capabilities the analysis functions use.  The script's
`doc.getCurrentSegment()` indirection is collapsed: `getInstructionAtAddress`
is queried directly.  `readByte` is total (the script compares the result
with `0` and never handles a failed byte read); `readUInt64LE` yields `none`
for a failed read, which the script's truthiness test handles like `0`. -/
structure Document where
  getInstructionAtAddress : Nat → Option Instruction
  readByte : Nat → Nat
  readUInt64LE : Int → Option Nat

/-- The expected mnemonic sequence (line 28). -/
def expected_instructions : List String :=
  ["adrp", "ldr", "adrp", "ldr", "br"]

/-- `is_objc_stub` (lines 18–29): fetch 5 instructions at `address + i*4`,
fail if any is missing, otherwise require each rendered text to start with
the expected mnemonic. -/
def is_objc_stub (doc : Document) (address : Nat) : Bool :=
  let instructions := (List.range 5).map fun i => doc.getInstructionAtAddress (address + i * 4)
  if instructions.any fun inst => inst.isNone then false
  else
    let instruction_strings := instructions.filterMap fun o => o.map Instruction.instructionString
    (instruction_strings.zip expected_instructions).all fun p => pyStartswith p.1.data p.2.data

/-- `parse_offset` (lines 32–42):
`parts = s.split("[")[1].split("]")[0].split(",")`, then
`int(parts[1].strip()[1:], 16)`; `IndexError` and `ValueError` are caught
and yield `None`. -/
def parse_offset (ldr_inst_offset_str : String) : Option Int :=
  match (pySplit '[' ldr_inst_offset_str.data).get? 1 with
  | none => none
  | some afterBracket =>
    let inside := (pySplit ']' afterBracket).headD []
    match (pySplit ',' inside).get? 1 with
    | none => none
    | some part1 => pyIntHex ((pyStrip part1).drop 1)

/-- The Python exceptions this model distinguishes. -/
inductive PyExn where
  | typeError
deriving DecidableEq

/-- `get_page_address` (lines 45–54): `int(arg[1:], 16)` with only
`ValueError` caught.  When `getFormattedArgument(1)` returns `None`,
`None[1:]` raises `TypeError`, which the handler does not cover, so the
exception escapes. -/
def get_page_address (adrp_inst : Instruction) : Except PyExn (Option Int) :=
  match adrp_inst.getFormattedArgument 1 with
  | none => Except.error PyExn.typeError
  | some a => Except.ok (pyIntHex (a.data.drop 1))

/-- Outcome of running a piece of the script: a returned value, an uncaught
Python exception, or (with the fuel model) a loop still running. -/
inductive PyOutcome (α : Type) where
  | ok (a : α)
  | raised (e : PyExn)
  | hung
deriving DecidableEq

/-- Lines 75–80 of `get_selector`: dereference the computed cell address and
materialize the string.  `if selector_ptr:` is Python truthiness: both a `0`
value and a failed (`None`) read fall through to `return None`. -/
def deref_selector (doc : Document) (fuel : Nat) (selector_addr : Int) :
    PyOutcome (Option String) :=
  match doc.readUInt64LE selector_addr with
  | some selector_ptr =>
    if selector_ptr ≠ 0 then
      match read_c_string doc.readByte selector_ptr fuel with
      | some bs => PyOutcome.ok (some (pyDecode bs))
      | none => PyOutcome.hung
    else PyOutcome.ok none
  | none => PyOutcome.ok none

/-- `get_selector` (lines 57–80): fetch the first two instructions, extract
the page address and the offset, and on success dereference
`page + offset`.  A `TypeError` escaping `get_page_address` propagates. -/
def get_selector (doc : Document) (fuel : Nat) (address : Nat) :
    PyOutcome (Option String) :=
  match doc.getInstructionAtAddress address, doc.getInstructionAtAddress (address + 4) with
  | some adrp_inst, some ldr_inst =>
    match get_page_address adrp_inst with
    | Except.error e => PyOutcome.raised e
    | Except.ok page? =>
      match page?, parse_offset (pyStr (ldr_inst.getFormattedArgument 1)) with
      | some page, some offset => deref_selector doc fuel (page + offset)
      | _, _ => PyOutcome.ok none
  | _, _ => PyOutcome.ok none

/-- The driver's environment (`rename_objc_stubs`, lines 83–116): the
document, whether `getSegmentByName("__TEXT")` finds a segment, the
segment's named addresses, the initial symbol names, and whether the host's
`setNameAtAddress` raises for a given address and name (the call on
line 114 sits outside the `try` block, so such an exception is uncaught). -/
structure DriverEnv where
  doc : Document
  hasTextSegment : Bool
  namedAddresses : List Nat
  names0 : Nat → String
  renameRaises : Nat → String → Bool

/-- Result of a scan: the final symbol names together with how the run
ended.  `finished` reaches the final report of the renamed count;
`aborted` means an uncaught exception escaped the loop (no report);
`hung` means a string read never terminated within the fuel;
`noSegment` is the early return when `__TEXT` is missing. -/
inductive ScanOutcome where
  | finished (names : Nat → String) (renamed : Nat)
  | aborted (names : Nat → String) (renamed : Nat)
  | hung (names : Nat → String) (renamed : Nat)
  | noSegment (names : Nat → String)

/-- The symbol names at the end of the scan (or when it stopped). -/
def finalNames : ScanOutcome → (Nat → String)
  | ScanOutcome.finished names _ => names
  | ScanOutcome.aborted names _ => names
  | ScanOutcome.hung names _ => names
  | ScanOutcome.noSegment names => names

/-- The renamed count the driver reports in its final print, `none` if the
run never reached that print. -/
def reportedCount : ScanOutcome → Option Nat
  | ScanOutcome.finished _ renamed => some renamed
  | _ => none

/-- The loop body of `rename_objc_stubs` (lines 94–114), one candidate at a
time, threading the symbol-name state and the `renamed_functions` counter.
The `try` block covers `is_objc_stub` and `get_selector` only; the count is
incremented (line 113) before `setNameAtAddress` runs (line 114), so a
raising rename aborts the scan with the count already incremented.
`if not selector:` is Python truthiness, so an empty selector string is
also skipped. -/
def scanLoop (env : DriverEnv) (fuel : Nat) :
    List Nat → (Nat → String) → Nat → ScanOutcome
  | [], names, renamed => ScanOutcome.finished names renamed
  | procedure_address :: rest, names, renamed =>
    let procedure_name := names procedure_address
    if ¬ pyStartswith procedure_name.data "sub_".data then
      scanLoop env fuel rest names renamed
    else if ¬ is_objc_stub env.doc procedure_address then
      scanLoop env fuel rest names renamed
    else
      match get_selector env.doc fuel procedure_address with
      | PyOutcome.raised _ => scanLoop env fuel rest names renamed
      | PyOutcome.hung => ScanOutcome.hung names renamed
      | PyOutcome.ok none => scanLoop env fuel rest names renamed
      | PyOutcome.ok (some selector) =>
        if selector = "" then scanLoop env fuel rest names renamed
        else
          let new_procedure_name := selector ++ "()"
          if env.renameRaises procedure_address new_procedure_name then
            ScanOutcome.aborted names (renamed + 1)
          else
            scanLoop env fuel rest
              (fun a => if a = procedure_address then new_procedure_name else names a)
              (renamed + 1)

/-- `rename_objc_stubs` (lines 83–116). -/
def rename_objc_stubs (env : DriverEnv) (fuel : Nat) : ScanOutcome :=
  if env.hasTextSegment then scanLoop env fuel env.namedAddresses env.names0 0
  else ScanOutcome.noSegment env.names0

/-- Specification-level count, following the spec's words: the number of
candidates in the list whose processing reaches the rename — name filter
passed, stub matched, a non-empty selector resolved — i.e. the candidates
whose rename is applied when no rename call raises. -/
def countSuccesses (env : DriverEnv) (fuel : Nat) :
    List Nat → (Nat → String) → Nat
  | [], _ => 0
  | procedure_address :: rest, names =>
    if ¬ pyStartswith (names procedure_address).data "sub_".data then
      countSuccesses env fuel rest names
    else if ¬ is_objc_stub env.doc procedure_address then
      countSuccesses env fuel rest names
    else
      match get_selector env.doc fuel procedure_address with
      | PyOutcome.ok (some selector) =>
        if selector = "" then countSuccesses env fuel rest names
        else
          1 + countSuccesses env fuel rest
            (fun a => if a = procedure_address then selector ++ "()" else names a)
      | _ => countSuccesses env fuel rest names

/-! ## Helper lemmas -/

theorem pySplit_ne_nil (sep : Char) (l : List Char) : pySplit sep l ≠ [] := by
  cases l with
  | nil => simp [pySplit]
  | cons c rest =>
    simp only [pySplit]
    cases h : pySplit sep rest with
    | nil => simp
    | cons p ps =>
      by_cases hc : c = sep <;> simp [hc]

theorem pySplit_eq_single_of_not_mem (sep : Char) (l : List Char) (h : sep ∉ l) :
    pySplit sep l = [l] := by
  induction l with
  | nil => rfl
  | cons c rest ih =>
    have hc : c ≠ sep := fun hcs => h (hcs ▸ List.mem_cons_self c rest)
    have hrest : sep ∉ rest := fun hm => h (List.mem_cons_of_mem c hm)
    simp only [pySplit, ih hrest]
    simp [fun hcs => hc hcs]

theorem mem_of_mem_pySplit (sep : Char) (l : List Char) (p : List Char) (c : Char)
    (hp : p ∈ pySplit sep l) (hc : c ∈ p) : c ∈ l := by
  induction l generalizing p with
  | nil =>
    simp only [pySplit, List.mem_singleton] at hp
    subst hp
    exact absurd hc (List.not_mem_nil c)
  | cons d rest ih =>
    simp only [pySplit] at hp
    cases hps : pySplit sep rest with
    | nil => exact absurd hps (pySplit_ne_nil sep rest)
    | cons q qs =>
      rw [hps] at hp
      dsimp only at hp
      by_cases hd : d = sep
      · rw [if_pos hd] at hp
        rcases List.mem_cons.mp hp with h1 | h1
        · subst h1; exact absurd hc (List.not_mem_nil c)
        · exact List.mem_cons_of_mem d (ih p (by rw [hps]; exact h1) hc)
      · rw [if_neg hd] at hp
        rcases List.mem_cons.mp hp with h1 | h1
        · subst h1
          rcases List.mem_cons.mp hc with h2 | h2
          · exact h2 ▸ List.mem_cons_self d rest
          · exact List.mem_cons_of_mem d
              (ih q (by rw [hps]; exact List.mem_cons_self q qs) h2)
        · exact List.mem_cons_of_mem d
            (ih p (by rw [hps]; exact List.mem_cons_of_mem q h1) hc)

theorem read_c_string_eq_of_first_zero (mem : Nat → Nat) (a k fuel : Nat)
    (hk : ∀ j, j < k → mem (a + j) ≠ 0) (h0 : mem (a + k) = 0) (hf : k < fuel) :
    read_c_string mem a fuel = some ((List.range k).map fun j => mem (a + j)) := by
  induction k generalizing a fuel with
  | zero =>
    obtain ⟨f, rfl⟩ : ∃ f, fuel = f + 1 := ⟨fuel - 1, by omega⟩
    simp only [read_c_string]
    rw [if_pos (by simpa using h0)]
    simp
  | succ k ih =>
    obtain ⟨f, rfl⟩ : ∃ f, fuel = f + 1 := ⟨fuel - 1, by omega⟩
    have ha : mem a ≠ 0 := by simpa using hk 0 (Nat.succ_pos k)
    simp only [read_c_string, if_neg ha]
    have ihh := ih (a + 1) f
      (fun j hj => by
        have := hk (j + 1) (by omega)
        simpa [Nat.add_assoc, Nat.add_comm 1 j] using this)
      (by simpa [Nat.add_assoc, Nat.add_comm 1 k] using h0)
      (by omega)
    rw [ihh]
    simp only [Option.map_some', List.range_succ_eq_map, List.map_cons, List.map_map]
    refine congrArg some ?_
    refine List.cons_eq_cons.mpr ⟨by simp, ?_⟩
    apply List.map_congr_left
    intro j hj
    simp only [Function.comp]
    congr 1
    omega

theorem read_c_string_none_of_no_zero (mem : Nat → Nat) (a : Nat)
    (h : ∀ k, mem (a + k) ≠ 0) (n : Nat) : read_c_string mem a n = none := by
  induction n generalizing a with
  | zero => rfl
  | succ n ih =>
    have ha : mem a ≠ 0 := by simpa using h 0
    simp only [read_c_string, if_neg ha]
    rw [ih (a + 1) (fun k => by
      have := h (k + 1)
      simpa [Nat.add_assoc, Nat.add_comm 1 k] using this)]
    rfl

theorem read_c_string_ne_none_of_zero (mem : Nat → Nat) (a k n : Nat)
    (h0 : mem (a + k) = 0) (hn : k < n) : read_c_string mem a n ≠ none := by
  induction k generalizing a n with
  | zero =>
    obtain ⟨f, rfl⟩ : ∃ f, n = f + 1 := ⟨n - 1, by omega⟩
    simp only [read_c_string]
    rw [if_pos (by simpa using h0)]
    simp
  | succ k ih =>
    obtain ⟨f, rfl⟩ : ∃ f, n = f + 1 := ⟨n - 1, by omega⟩
    simp only [read_c_string]
    by_cases ha : mem a = 0
    · rw [if_pos ha]; simp
    · rw [if_neg ha]
      have := ih (a + 1) f (by simpa [Nat.add_assoc, Nat.add_comm 1 k] using h0) (by omega)
      intro hmap
      exact this (by simpa using hmap)

theorem parse_offset_eq_none_of_no_bracket (s : String) (h : '[' ∉ s.data) :
    parse_offset s = none := by
  unfold parse_offset
  rw [pySplit_eq_single_of_not_mem '[' s.data h]
  rfl

theorem parse_offset_eq_none_of_no_comma (s : String) (h : ',' ∉ s.data) :
    parse_offset s = none := by
  unfold parse_offset
  cases h1 : (pySplit '[' s.data).get? 1 with
  | none => rfl
  | some afterBracket =>
    dsimp only
    have hmem : afterBracket ∈ pySplit '[' s.data := List.get?_mem h1
    have hcomma1 : ',' ∉ afterBracket := fun hc =>
      h (mem_of_mem_pySplit '[' s.data afterBracket ',' hmem hc)
    cases hsp : pySplit ']' afterBracket with
    | nil => exact absurd hsp (pySplit_ne_nil ']' afterBracket)
    | cons q qs =>
      have hq : q ∈ pySplit ']' afterBracket := by
        rw [hsp]; exact List.mem_cons_self q qs
      have hcomma2 : ',' ∉ q := fun hc =>
        hcomma1 (mem_of_mem_pySplit ']' afterBracket q ',' hq hc)
      simp only [List.headD_cons]
      rw [pySplit_eq_single_of_not_mem ',' q hcomma2]
      rfl

theorem parse_offset_eq_none_of_bad_hex (s : String) (t u : List Char)
    (h1 : (pySplit '[' s.data).get? 1 = some t)
    (h2 : (pySplit ',' ((pySplit ']' t).headD [])).get? 1 = some u)
    (h3 : pyIntHex ((pyStrip u).drop 1) = none) :
    parse_offset s = none := by
  unfold parse_offset
  rw [h1]
  dsimp only
  rw [h2]
  dsimp only
  exact h3

theorem get_page_address_eq_parse (adrp_inst : Instruction) (a : String)
    (h : adrp_inst.getFormattedArgument 1 = some a) :
    get_page_address adrp_inst = Except.ok (pyIntHex (a.data.drop 1)) := by
  unfold get_page_address
  rw [h]

theorem get_page_address_raises (adrp_inst : Instruction)
    (h : adrp_inst.getFormattedArgument 1 = none) :
    get_page_address adrp_inst = Except.error PyExn.typeError := by
  unfold get_page_address
  rw [h]

theorem get_selector_eq_deref (doc : Document) (fuel address : Nat)
    (adrp_inst ldr_inst : Instruction) (page offset : Int)
    (h1 : doc.getInstructionAtAddress address = some adrp_inst)
    (h2 : doc.getInstructionAtAddress (address + 4) = some ldr_inst)
    (h3 : get_page_address adrp_inst = Except.ok (some page))
    (h4 : parse_offset (pyStr (ldr_inst.getFormattedArgument 1)) = some offset) :
    get_selector doc fuel address = deref_selector doc fuel (page + offset) := by
  unfold get_selector
  rw [h1, h2]
  dsimp only
  rw [h3]
  dsimp only
  rw [h4]

theorem get_selector_eq_none_of_page_none (doc : Document) (fuel address : Nat)
    (adrp_inst ldr_inst : Instruction)
    (h1 : doc.getInstructionAtAddress address = some adrp_inst)
    (h2 : doc.getInstructionAtAddress (address + 4) = some ldr_inst)
    (h3 : get_page_address adrp_inst = Except.ok none) :
    get_selector doc fuel address = PyOutcome.ok none := by
  unfold get_selector
  rw [h1, h2]
  dsimp only
  rw [h3]

theorem get_selector_eq_none_of_offset_none (doc : Document) (fuel address : Nat)
    (adrp_inst ldr_inst : Instruction) (page? : Option Int)
    (h1 : doc.getInstructionAtAddress address = some adrp_inst)
    (h2 : doc.getInstructionAtAddress (address + 4) = some ldr_inst)
    (h3 : get_page_address adrp_inst = Except.ok page?)
    (h4 : parse_offset (pyStr (ldr_inst.getFormattedArgument 1)) = none) :
    get_selector doc fuel address = PyOutcome.ok none := by
  unfold get_selector
  rw [h1, h2]
  dsimp only
  rw [h3]
  dsimp only
  rw [h4]
  cases page? <;> rfl

theorem get_selector_raises_of_page_raises (doc : Document) (fuel address : Nat)
    (adrp_inst ldr_inst : Instruction) (e : PyExn)
    (h1 : doc.getInstructionAtAddress address = some adrp_inst)
    (h2 : doc.getInstructionAtAddress (address + 4) = some ldr_inst)
    (h3 : get_page_address adrp_inst = Except.error e) :
    get_selector doc fuel address = PyOutcome.raised e := by
  unfold get_selector
  rw [h1, h2]
  dsimp only
  rw [h3]

theorem is_objc_stub_eq_true_iff (doc : Document) (address : Nat) :
    is_objc_stub doc address = true ↔
      (∃ i0, doc.getInstructionAtAddress address = some i0 ∧
        pyStartswith i0.instructionString.data "adrp".data = true) ∧
      (∃ i1, doc.getInstructionAtAddress (address + 4) = some i1 ∧
        pyStartswith i1.instructionString.data "ldr".data = true) ∧
      (∃ i2, doc.getInstructionAtAddress (address + 8) = some i2 ∧
        pyStartswith i2.instructionString.data "adrp".data = true) ∧
      (∃ i3, doc.getInstructionAtAddress (address + 12) = some i3 ∧
        pyStartswith i3.instructionString.data "ldr".data = true) ∧
      (∃ i4, doc.getInstructionAtAddress (address + 16) = some i4 ∧
        pyStartswith i4.instructionString.data "br".data = true) := by
  unfold is_objc_stub
  have hr : List.range 5 = [0, 1, 2, 3, 4] := rfl
  rw [hr]
  norm_num
  cases h0 : doc.getInstructionAtAddress address <;>
    cases h1 : doc.getInstructionAtAddress (address + 4) <;>
      cases h2 : doc.getInstructionAtAddress (address + 8) <;>
        cases h3 : doc.getInstructionAtAddress (address + 12) <;>
          cases h4 : doc.getInstructionAtAddress (address + 16) <;>
            simp [expected_instructions]
  exact ⟨fun h =>
      ⟨h _ _ (Or.inl ⟨rfl, rfl⟩), h _ _ (Or.inr (Or.inl ⟨rfl, rfl⟩)),
        h _ _ (Or.inr (Or.inr (Or.inl ⟨rfl, rfl⟩))),
        h _ _ (Or.inr (Or.inr (Or.inr (Or.inl ⟨rfl, rfl⟩)))),
        h _ _ (Or.inr (Or.inr (Or.inr (Or.inr ⟨rfl, rfl⟩))))⟩,
      fun hp a b hab => by
        obtain ⟨p0, p1, p2, p3, p4⟩ := hp
        rcases hab with ⟨rfl, rfl⟩ | ⟨rfl, rfl⟩ | ⟨rfl, rfl⟩ | ⟨rfl, rfl⟩ | ⟨rfl, rfl⟩ <;>
          assumption⟩

/-! ## Claim theorems -/

/-- C1: for every fetch function and candidate address, `is_objc_stub`
returns true if and only if all 5 instruction fetches at `address + k*4`
(k = 0..4) yield an instruction whose rendered text begins with the k-th
expected mnemonic of `["adrp", "ldr", "adrp", "ldr", "br"]`; if any fetch
yields no instruction or any prefix match fails, it returns false. -/
theorem is_objc_stub_window_iff (doc : Document) (address : Nat) :
    is_objc_stub doc address = true ↔
      ∀ k : Fin 5, ∃ inst,
        doc.getInstructionAtAddress (address + k.val * 4) = some inst ∧
        pyStartswith inst.instructionString.data
          (expected_instructions.get ⟨k.val, k.isLt⟩).data = true := by
  rw [is_objc_stub_eq_true_iff]
  constructor
  · rintro ⟨c0, c1, c2, c3, c4⟩ k
    fin_cases k
    · exact c0
    · exact c1
    · exact c2
    · exact c3
    · exact c4
  · intro h
    exact ⟨h 0, h 1, h 2, h 3, h 4⟩

/-- C2: for a matched stub with both operands parsed, the resolver
dereferences exactly the cell address `page + offset`, where `page` is the
hexadecimal value parsed from the first instruction's second formatted
operand after stripping one leading marker character, and `offset` is the
hexadecimal value parsed from the bracketed offset text of the second
instruction's memory operand after stripping one leading marker
character. -/
theorem get_selector_cell_address (doc : Document) (fuel address : Nat)
    (adrp_inst ldr_inst : Instruction) (pa : String) (page offset : Int)
    (h1 : doc.getInstructionAtAddress address = some adrp_inst)
    (h2 : doc.getInstructionAtAddress (address + 4) = some ldr_inst)
    (h3 : adrp_inst.getFormattedArgument 1 = some pa)
    (h4 : pyIntHex (pa.data.drop 1) = some page)
    (h5 : parse_offset (pyStr (ldr_inst.getFormattedArgument 1)) = some offset) :
    get_selector doc fuel address = deref_selector doc fuel (page + offset) := by
  have hpage : get_page_address adrp_inst = Except.ok (some page) := by
    rw [get_page_address_eq_parse adrp_inst pa h3, h4]
  exact get_selector_eq_deref doc fuel address adrp_inst ldr_inst page offset h1 h2 hpage h5

/-- A concrete adrp instruction whose second operand renders as
`#0x100000`. -/
def adrpExample : Instruction :=
  { instructionString := "adrp x8, #0x100000", formattedArgs := ["x8", "#0x100000"] }

/-- A concrete ldr instruction whose memory operand renders as
`[x8, #0x18]`. -/
def ldrExample : Instruction :=
  { instructionString := "ldr x3, [x8, #0x18]", formattedArgs := ["x3", "[x8, #0x18]"] }

/-- A concrete br instruction. -/
def brExample : Instruction :=
  { instructionString := "br x3", formattedArgs := ["x3"] }

/-- A concrete document: a stub at `0x4000`, a pointer cell at `0x100018`
holding `0x200000`, and the bytes `"foo\0"` at `0x200000`. -/
def docExample : Document :=
  { getInstructionAtAddress := fun a =>
      if a = 0x4000 then some adrpExample
      else if a = 0x4004 then some ldrExample
      else if a = 0x4008 then some adrpExample
      else if a = 0x400c then some ldrExample
      else if a = 0x4010 then some brExample
      else none
    readByte := fun a =>
      if a = 0x200000 then 102
      else if a = 0x200001 then 111
      else if a = 0x200002 then 111
      else 0
    readUInt64LE := fun a => if a = 0x100018 then some 0x200000 else none }

/-- Witness for C2: with page operand `#0x100000` and memory operand
`[x8, #0x18]` the resolver dereferences cell `0x100018 = 0x100000 + 0x18`,
and following that cell produces the string stored there. -/
theorem get_selector_cell_address_witness :
    get_selector docExample 8 0x4000 = deref_selector docExample 8 0x100018 ∧
    deref_selector docExample 8 0x100018 = PyOutcome.ok (some "foo") := by
  constructor
  · exact get_selector_cell_address docExample 8 0x4000 adrpExample ldrExample
      "#0x100000" 0x100000 0x18 rfl rfl rfl (by decide) (by decide)
  · decide

/-- An 8-byte little-endian read assembled from single bytes, tying the
host's `readUInt64LE` capability to a flat byte image. -/
def readUInt64LEofBytes (mem : Nat → Nat) (a : Nat) : Nat :=
  mem a + 256 * (mem (a + 1) + 256 * (mem (a + 2) + 256 * (mem (a + 3) +
    256 * (mem (a + 4) + 256 * (mem (a + 5) + 256 * (mem (a + 6) +
      256 * mem (a + 7)))))))

/-- A document over a flat byte image: bytes come from `mem` and the 8-byte
read is the little-endian assembly of 8 consecutive bytes. -/
def docOfMem (fetch : Nat → Option Instruction) (mem : Nat → Nat) : Document :=
  { getInstructionAtAddress := fetch
    readByte := mem
    readUInt64LE := fun a =>
      if 0 ≤ a then some (readUInt64LEofBytes mem a.toNat) else none }

/-- C3: round-trip through resolution and string reading.  For a memory
image whose computed cell address `P` holds the 8-byte little-endian
non-zero pointer `Q`, with the bytes `"foo"` followed by a zero byte at
`Q`, resolving the stub yields exactly `"foo"`. -/
theorem get_selector_round_trip (fetch : Nat → Option Instruction)
    (mem : Nat → Nat) (fuel address : Nat)
    (adrp_inst ldr_inst : Instruction) (page offset : Int) (P Q : Nat)
    (h1 : fetch address = some adrp_inst)
    (h2 : fetch (address + 4) = some ldr_inst)
    (h3 : get_page_address adrp_inst = Except.ok (some page))
    (h4 : parse_offset (pyStr (ldr_inst.getFormattedArgument 1)) = some offset)
    (hP : page + offset = (P : Int))
    (hQ : readUInt64LEofBytes mem P = Q) (hQ0 : Q ≠ 0)
    (hb0 : mem Q = 102) (hb1 : mem (Q + 1) = 111) (hb2 : mem (Q + 2) = 111)
    (hb3 : mem (Q + 3) = 0) (hfuel : 4 ≤ fuel) :
    get_selector (docOfMem fetch mem) fuel address = PyOutcome.ok (some "foo") := by
  rw [get_selector_eq_deref (docOfMem fetch mem) fuel address adrp_inst ldr_inst
    page offset h1 h2 h3 h4]
  unfold deref_selector
  rw [hP]
  have hread : (docOfMem fetch mem).readUInt64LE (P : Int) = some Q := by
    simp [docOfMem, hQ]
  rw [hread]
  dsimp only
  rw [if_pos hQ0]
  have hrc : read_c_string (docOfMem fetch mem).readByte Q fuel = some [102, 111, 111] := by
    show read_c_string mem Q fuel = some [102, 111, 111]
    have hmain := read_c_string_eq_of_first_zero mem Q 3 fuel
      (fun j hj => by interval_cases j <;> simp [hb0, hb1, hb2])
      hb3 (by omega)
    have hlist : (List.range 3).map (fun j => mem (Q + j)) = [102, 111, 111] := by
      have h3r : List.range 3 = [0, 1, 2] := rfl
      rw [h3r]
      simp [hb0, hb1, hb2]
    rw [hmain, hlist]
  rw [hrc]
  decide

/-- The instruction fetch of the concrete example document. -/
def fetchExample : Nat → Option Instruction :=
  docExample.getInstructionAtAddress

/-- A flat byte image: cell `0x100018` holds the little-endian pointer
`0x200000` (single non-zero byte `0x20` at `0x10001a`), and the bytes
`"foo\0"` sit at `0x200000`. -/
def memExample : Nat → Nat := fun a =>
  if a = 0x10001a then 0x20
  else if a = 0x200000 then 102
  else if a = 0x200001 then 111
  else if a = 0x200002 then 111
  else 0

/-- Witness for C3 at the concrete image. -/
theorem get_selector_round_trip_witness :
    get_selector (docOfMem fetchExample memExample) 8 0x4000 = PyOutcome.ok (some "foo") :=
  get_selector_round_trip fetchExample memExample 8 0x4000 adrpExample ldrExample
    0x100000 0x18 0x100018 0x200000 rfl rfl rfl (by decide) (by decide) (by decide)
    (by decide) (by decide) (by decide) (by decide) (by decide) (by decide)

/-- C5 counterexample: a first instruction with no second formatted operand
makes `get_page_address` raise `TypeError` (only `ValueError` is caught),
and the exception propagates out of `get_selector` — instead of the claimed
null result without an exception. -/
def adrpMissingOperand : Instruction :=
  { instructionString := "adrp x8", formattedArgs := ["x8"] }

/-- A document whose stub's first instruction lacks its second operand. -/
def docMissingOperand : Document :=
  { getInstructionAtAddress := fun a =>
      if a = 0 then some adrpMissingOperand
      else if a = 4 then some ldrExample
      else none
    readByte := fun _ => 0
    readUInt64LE := fun _ => none }

/-- C5 is false as stated: at this concrete input the extraction raises
rather than returning a null result. -/
theorem get_page_address_missing_operand_raises :
    get_page_address adrpMissingOperand = Except.error PyExn.typeError ∧
    get_selector docMissingOperand 8 0 = PyOutcome.raised PyExn.typeError :=
  ⟨rfl, rfl⟩

/-- C5 amended: if the second formatted operand is present but its text
after stripping one leading character is not a hexadecimal numeral,
`get_page_address` returns a null result and the resolver returns no
result without raising; if the operand is missing, `get_page_address`
raises `TypeError`, which propagates out of the resolver to its caller. -/
theorem get_page_address_failure_modes (doc : Document) (fuel address : Nat)
    (adrp_inst ldr_inst : Instruction)
    (h1 : doc.getInstructionAtAddress address = some adrp_inst)
    (h2 : doc.getInstructionAtAddress (address + 4) = some ldr_inst) :
    (adrp_inst.getFormattedArgument 1 = none →
      get_page_address adrp_inst = Except.error PyExn.typeError ∧
      get_selector doc fuel address = PyOutcome.raised PyExn.typeError) ∧
    (∀ pa : String, adrp_inst.getFormattedArgument 1 = some pa →
      pyIntHex (pa.data.drop 1) = none →
      get_page_address adrp_inst = Except.ok none ∧
      get_selector doc fuel address = PyOutcome.ok none) := by
  constructor
  · intro hm
    have hga := get_page_address_raises adrp_inst hm
    exact ⟨hga, get_selector_raises_of_page_raises doc fuel address adrp_inst
      ldr_inst PyExn.typeError h1 h2 hga⟩
  · intro pa hpa hbad
    have hga : get_page_address adrp_inst = Except.ok none := by
      rw [get_page_address_eq_parse adrp_inst pa hpa, hbad]
    exact ⟨hga, get_selector_eq_none_of_page_none doc fuel address adrp_inst
      ldr_inst h1 h2 hga⟩

/-- A first instruction whose second operand is not hexadecimal. -/
def adrpBadHex : Instruction :=
  { instructionString := "adrp x8, #zz", formattedArgs := ["x8", "#zz"] }

/-- A document whose stub's first instruction has a non-hex operand. -/
def docBadHex : Document :=
  { getInstructionAtAddress := fun a =>
      if a = 0 then some adrpBadHex
      else if a = 4 then some ldrExample
      else none
    readByte := fun _ => 0
    readUInt64LE := fun _ => none }

/-- Witness for the amended C5 at concrete inputs. -/
theorem get_page_address_failure_modes_witness :
    get_selector docMissingOperand 8 0 = PyOutcome.raised PyExn.typeError ∧
    get_selector docBadHex 8 0 = PyOutcome.ok none := by
  constructor
  · exact ((get_page_address_failure_modes docMissingOperand 8 0
      adrpMissingOperand ldrExample rfl rfl).1 rfl).2
  · exact ((get_page_address_failure_modes docBadHex 8 0
      adrpBadHex ldrExample rfl rfl).2 "#zz" rfl (by decide)).2

/-- C6 counterexample: a memory operand text lacking its closing bracket
still parses (Python's `split("]")[0]` simply returns the whole remainder),
contradicting the claim that a missing closing bracket yields a null
result. -/
theorem parse_offset_missing_close_bracket_parses :
    parse_offset "[x8, #0x18" = some 24 := by decide

/-- C6 amended: a missing opening bracket, a missing comma, or non-hex
offset digits yield a null Byte Offset, and a null Byte Offset makes the
resolver return no result rather than an uncaught error; a missing closing
bracket alone, however, does not cause failure (the remainder of the text
after the first opening bracket is used). -/
theorem parse_offset_failure_modes :
    (∀ s : String, '[' ∉ s.data → parse_offset s = none) ∧
    (∀ s : String, ',' ∉ s.data → parse_offset s = none) ∧
    (∀ (s : String) (t u : List Char),
      (pySplit '[' s.data).get? 1 = some t →
      (pySplit ',' ((pySplit ']' t).headD [])).get? 1 = some u →
      pyIntHex ((pyStrip u).drop 1) = none →
      parse_offset s = none) ∧
    (∀ (doc : Document) (fuel address : Nat)
      (adrp_inst ldr_inst : Instruction) (page? : Option Int),
      doc.getInstructionAtAddress address = some adrp_inst →
      doc.getInstructionAtAddress (address + 4) = some ldr_inst →
      get_page_address adrp_inst = Except.ok page? →
      parse_offset (pyStr (ldr_inst.getFormattedArgument 1)) = none →
      get_selector doc fuel address = PyOutcome.ok none) :=
  ⟨parse_offset_eq_none_of_no_bracket, parse_offset_eq_none_of_no_comma,
    parse_offset_eq_none_of_bad_hex,
    fun doc fuel address adrp_inst ldr_inst page? h1 h2 h3 h4 =>
      get_selector_eq_none_of_offset_none doc fuel address adrp_inst ldr_inst
        page? h1 h2 h3 h4⟩

/-- A second instruction whose memory operand lacks a comma. -/
def ldrNoComma : Instruction :=
  { instructionString := "ldr x3, [x8]", formattedArgs := ["x3", "[x8]"] }

/-- A document whose stub's second instruction has a comma-free memory
operand. -/
def docBadOffset : Document :=
  { getInstructionAtAddress := fun a =>
      if a = 0 then some adrpExample
      else if a = 4 then some ldrNoComma
      else none
    readByte := fun _ => 0
    readUInt64LE := fun _ => none }

/-- Witness for the amended C6 at concrete inputs. -/
theorem parse_offset_failure_modes_witness :
    parse_offset "x8, #0x18]" = none ∧
    parse_offset "[x8]" = none ∧
    parse_offset "[x8, #zz]" = none ∧
    get_selector docBadOffset 8 0 = PyOutcome.ok none := by
  refine ⟨parse_offset_failure_modes.1 "x8, #0x18]" (by decide),
    parse_offset_failure_modes.2.1 "[x8]" (by decide),
    parse_offset_failure_modes.2.2.1 "[x8, #zz]" "x8, #zz]".data " #zz".data
      (by decide) (by decide) (by decide),
    parse_offset_failure_modes.2.2.2 docBadOffset 8 0 adrpExample ldrNoComma
      (some 0x100000) rfl rfl rfl (by decide)⟩

/-- C7: when both operands parsed, a pointer-cell read that yields zero or
fails makes the resolver return no result. -/
theorem get_selector_none_of_zero_or_failed_read (doc : Document)
    (fuel address : Nat) (adrp_inst ldr_inst : Instruction) (page offset : Int)
    (h1 : doc.getInstructionAtAddress address = some adrp_inst)
    (h2 : doc.getInstructionAtAddress (address + 4) = some ldr_inst)
    (h3 : get_page_address adrp_inst = Except.ok (some page))
    (h4 : parse_offset (pyStr (ldr_inst.getFormattedArgument 1)) = some offset)
    (hread : doc.readUInt64LE (page + offset) = some 0 ∨
      doc.readUInt64LE (page + offset) = none) :
    get_selector doc fuel address = PyOutcome.ok none := by
  rw [get_selector_eq_deref doc fuel address adrp_inst ldr_inst page offset h1 h2 h3 h4]
  unfold deref_selector
  rcases hread with h | h <;> rw [h]
  simp

/-- A document whose pointer cell holds the value zero. -/
def docZeroCell : Document :=
  { getInstructionAtAddress := docExample.getInstructionAtAddress
    readByte := docExample.readByte
    readUInt64LE := fun a => if a = 0x100018 then some 0 else none }

/-- A document whose 8-byte reads all fail. -/
def docFailRead : Document :=
  { getInstructionAtAddress := docExample.getInstructionAtAddress
    readByte := docExample.readByte
    readUInt64LE := fun _ => none }

/-- Witness for C7: a zero cell and a failed read both yield no result. -/
theorem get_selector_none_of_zero_or_failed_read_witness :
    get_selector docZeroCell 8 0x4000 = PyOutcome.ok none ∧
    get_selector docFailRead 8 0x4000 = PyOutcome.ok none :=
  ⟨get_selector_none_of_zero_or_failed_read docZeroCell 8 0x4000 adrpExample
      ldrExample 0x100000 0x18 rfl rfl rfl (by decide) (Or.inl (by decide)),
    get_selector_none_of_zero_or_failed_read docFailRead 8 0x4000 adrpExample
      ldrExample 0x100000 0x18 rfl rfl rfl (by decide) (Or.inr (by decide))⟩

/-- C8: for every memory source with a zero byte at or after the start
address (and no earlier zero), `read_c_string` returns exactly the bytes
strictly before the first zero byte and never includes the terminator. -/
theorem read_c_string_stops_at_first_zero (mem : Nat → Nat) (a k fuel : Nat)
    (hk : ∀ j, j < k → mem (a + j) ≠ 0) (h0 : mem (a + k) = 0) (hf : k < fuel) :
    read_c_string mem a fuel = some ((List.range k).map fun j => mem (a + j)) ∧
    0 ∉ (List.range k).map fun j => mem (a + j) := by
  refine ⟨read_c_string_eq_of_first_zero mem a k fuel hk h0 hf, ?_⟩
  intro hmem
  obtain ⟨j, hj, hj0⟩ := List.mem_map.mp hmem
  exact hk j (List.mem_range.mp hj) hj0

/-- The byte image `"bar\0baz\0"` starting at address 0. -/
def memBar : Nat → Nat := fun n => [98, 97, 114, 0, 98, 97, 122, 0].getD n 0

/-- Witness for C8: reading `"bar\0baz\0"` from the first byte yields
exactly `"bar"`. -/
theorem read_c_string_stops_at_first_zero_witness :
    read_c_string memBar 0 8 = some [98, 97, 114] ∧ pyDecode [98, 97, 114] = "bar" := by
  have h := read_c_string_stops_at_first_zero memBar 0 3 8
    (by decide) (by decide) (by decide)
  refine ⟨?_, by decide⟩
  rw [h.1]
  decide

/-- C9 counterexample: on a memory source with no zero byte there is no cap
at which the loop of `read_c_string` finishes: for every fuel bound the
fueled model is still running, so nothing like a LengthExceeded condition
is ever signalled. -/
theorem read_c_string_unbounded_on_no_zero :
    ¬ ∃ cap : Nat, read_c_string (fun _ => 1) 0 cap ≠ none := by
  rintro ⟨cap, hcap⟩
  exact hcap (read_c_string_none_of_no_zero (fun _ => 1) 0 (fun k => one_ne_zero) cap)

/-- C9 amended: `read_c_string` has no iteration cap and signals no
LengthExceeded condition; it terminates exactly when a zero byte is
reached — on a source with no zero byte at or after the start address it
never terminates (for every fuel bound the fueled model is still running),
and when a zero byte exists within the fuel bound it terminates. -/
theorem read_c_string_no_cap (mem : Nat → Nat) (a : Nat) :
    ((∀ k, mem (a + k) ≠ 0) → ∀ n, read_c_string mem a n = none) ∧
    (∀ k, mem (a + k) = 0 → ∀ n, k < n → read_c_string mem a n ≠ none) :=
  ⟨fun h n => read_c_string_none_of_no_zero mem a h n,
    fun k hk n hn => read_c_string_ne_none_of_zero mem a k n hk hn⟩

/-- Witness for the amended C9. -/
theorem read_c_string_no_cap_witness :
    read_c_string (fun _ => 1) 0 1000 = none ∧ read_c_string memBar 0 8 ≠ none :=
  ⟨(read_c_string_no_cap (fun _ => 1) 0).1 (fun k => one_ne_zero) 1000,
    (read_c_string_no_cap memBar 0).2 3 (by decide) 8 (by decide)⟩

theorem scanLoop_raised_step (env : DriverEnv) (fuel a : Nat) (rest : List Nat)
    (names : Nat → String) (renamed : Nat)
    (hname : pyStartswith (names a).data "sub_".data = true)
    (hstub : is_objc_stub env.doc a = true)
    (hraise : ∃ e, get_selector env.doc fuel a = PyOutcome.raised e) :
    scanLoop env fuel (a :: rest) names renamed = scanLoop env fuel rest names renamed := by
  obtain ⟨e, he⟩ := hraise
  simp only [scanLoop]
  rw [if_neg (by simp [hname])]
  rw [if_neg (by simp [hstub])]
  rw [he]

theorem scanLoop_count (env : DriverEnv) (fuel : Nat)
    (hnr : ∀ a n, env.renameRaises a n = false) :
    ∀ (addrs : List Nat) (names names' : Nat → String) (renamed renamed' : Nat),
      scanLoop env fuel addrs names renamed = ScanOutcome.finished names' renamed' →
      renamed' = renamed + countSuccesses env fuel addrs names := by
  intro addrs
  induction addrs with
  | nil =>
    intro names names' renamed renamed' h
    simp only [scanLoop] at h
    injection h with h1 h2
    simp [countSuccesses, h2]
  | cons b rest ih =>
    intro names names' renamed renamed' h
    simp only [scanLoop] at h
    simp only [countSuccesses]
    by_cases hname : pyStartswith (names b).data "sub_".data = true
    · rw [if_neg (by simp [hname])] at h
      rw [if_neg (by simp [hname])]
      by_cases hstub : is_objc_stub env.doc b = true
      · rw [if_neg (by simp [hstub])] at h
        rw [if_neg (by simp [hstub])]
        cases hsel : get_selector env.doc fuel b with
        | ok sel? =>
          rw [hsel] at h
          cases sel? with
          | none =>
            dsimp only at h
            exact ih names names' renamed renamed' h
          | some selector =>
            dsimp only at h
            dsimp only
            by_cases hemp : selector = ""
            · rw [if_pos hemp] at h
              rw [if_pos hemp]
              exact ih names names' renamed renamed' h
            · rw [if_neg hemp] at h
              rw [if_neg hemp]
              rw [if_neg (by simp [hnr b (selector ++ "()")])] at h
              have := ih (fun x => if x = b then selector ++ "()" else names x)
                names' (renamed + 1) renamed' h
              omega
        | raised e =>
          rw [hsel] at h
          dsimp only at h
          exact ih names names' renamed renamed' h
        | hung =>
          rw [hsel] at h
          dsimp only at h
          exact ScanOutcome.noConfusion h
      · rw [if_pos hstub] at h
        rw [if_pos hstub]
        exact ih names names' renamed renamed' h
    · rw [if_pos hname] at h
      rw [if_pos hname]
      exact ih names names' renamed renamed' h

theorem scanLoop_preserves_name (env : DriverEnv) (fuel : Nat) :
    ∀ (addrs : List Nat) (names : Nat → String) (renamed a : Nat),
      pyStartswith (names a).data "sub_".data = false →
      finalNames (scanLoop env fuel addrs names renamed) a = names a := by
  intro addrs
  induction addrs with
  | nil =>
    intro names renamed a ha
    simp [scanLoop, finalNames]
  | cons b rest ih =>
    intro names renamed a ha
    simp only [scanLoop]
    by_cases hname : pyStartswith (names b).data "sub_".data = true
    · rw [if_neg (by simp [hname])]
      by_cases hstub : is_objc_stub env.doc b = true
      · rw [if_neg (by simp [hstub])]
        cases hsel : get_selector env.doc fuel b with
        | raised e => exact ih names renamed a ha
        | hung => simp [finalNames]
        | ok sel? =>
          cases sel? with
          | none => exact ih names renamed a ha
          | some selector =>
            dsimp only
            by_cases hemp : selector = ""
            · rw [if_pos hemp]
              exact ih names renamed a ha
            · rw [if_neg hemp]
              by_cases hrr : env.renameRaises b (selector ++ "()") = true
              · rw [if_pos hrr]
                simp [finalNames]
              · rw [if_neg hrr]
                have hba : b ≠ a := by
                  intro hba
                  rw [hba] at hname
                  rw [hname] at ha
                  exact Bool.noConfusion ha
                have hupd : (fun x => if x = b then selector ++ "()" else names x) a = names a := by
                  simp [if_neg (fun hab : a = b => hba hab.symm)]
                have hres := ih (fun x => if x = b then selector ++ "()" else names x)
                  (renamed + 1) a (by rw [hupd]; exact ha)
                rw [hres, hupd]
      · rw [if_pos hstub]
        exact ih names renamed a ha
    · rw [if_pos hname]
      exact ih names renamed a ha

/-- A document with genuine stubs at `0x4000` and `0x5000`, both resolving
to the selector `"foo"` through cell `0x100018`. -/
def docTwoStubs : Document :=
  { getInstructionAtAddress := fun a =>
      if a = 0x4000 ∨ a = 0x5000 then some adrpExample
      else if a = 0x4004 ∨ a = 0x5004 then some ldrExample
      else if a = 0x4008 ∨ a = 0x5008 then some adrpExample
      else if a = 0x400c ∨ a = 0x500c then some ldrExample
      else if a = 0x4010 ∨ a = 0x5010 then some brExample
      else none
    readByte := docExample.readByte
    readUInt64LE := docExample.readUInt64LE }

/-- An environment where the host's `setNameAtAddress` raises for the first
candidate `0x4000` but not for the second candidate `0x5000`. -/
def envAbort : DriverEnv :=
  { doc := docTwoStubs
    hasTextSegment := true
    namedAddresses := [0x4000, 0x5000]
    names0 := fun a => if a = 0x4000 then "sub_a" else if a = 0x5000 then "sub_b" else "x"
    renameRaises := fun a _ => a = 0x4000 }

/-- The same environment with only the second candidate and no raising
rename. -/
def envTail : DriverEnv :=
  { doc := docTwoStubs
    hasTextSegment := true
    namedAddresses := [0x5000]
    names0 := fun a => if a = 0x4000 then "sub_a" else if a = 0x5000 then "sub_b" else "x"
    renameRaises := fun _ _ => false }

/-- C4 counterexample: the rename call sits outside the `try` block
(line 114), so an exception raised while renaming the first candidate
aborts the scan: no final count is reported and the second candidate —
which the same scan renames when the first candidate is absent — is left
unanalyzed; moreover the internal count was already incremented (line 113)
although no rename was applied. -/
theorem rename_raise_aborts_scan :
    reportedCount (rename_objc_stubs envAbort 8) = none ∧
    finalNames (rename_objc_stubs envAbort 8) 0x5000 = "sub_b" ∧
    reportedCount (rename_objc_stubs envTail 8) = some 1 ∧
    finalNames (rename_objc_stubs envTail 8) 0x5000 = "foo()" := by
  refine ⟨by decide, by decide, by decide, by decide⟩

/-- C4 amended: an exception raised during the analysis (stub check or
selector extraction) of one candidate is caught and does not prevent
analysis of the remaining candidates; and when no rename call raises, a
finished scan reports a renamed count equal to exactly the number of
candidates whose rename was applied.  An exception raised by the rename
call itself, however, aborts the scan (see the counterexample). -/
theorem scan_error_isolation_and_count :
    (∀ (env : DriverEnv) (fuel a : Nat) (rest : List Nat)
      (names : Nat → String) (renamed : Nat),
      pyStartswith (names a).data "sub_".data = true →
      is_objc_stub env.doc a = true →
      (∃ e, get_selector env.doc fuel a = PyOutcome.raised e) →
      scanLoop env fuel (a :: rest) names renamed = scanLoop env fuel rest names renamed) ∧
    (∀ (env : DriverEnv) (fuel : Nat),
      (∀ a n, env.renameRaises a n = false) →
      ∀ (addrs : List Nat) (names names' : Nat → String) (renamed renamed' : Nat),
      scanLoop env fuel addrs names renamed = ScanOutcome.finished names' renamed' →
      renamed' = renamed + countSuccesses env fuel addrs names) :=
  ⟨fun env fuel a rest names renamed hname hstub hraise =>
      scanLoop_raised_step env fuel a rest names renamed hname hstub hraise,
    fun env fuel hnr addrs names names' renamed renamed' h =>
      scanLoop_count env fuel hnr addrs names names' renamed renamed' h⟩

/-- A document whose 5-instruction window at 0 matches the stub shape but
whose first instruction has no second operand, so selector extraction
raises `TypeError`. -/
def docRaising : Document :=
  { getInstructionAtAddress := fun a =>
      if a = 0 then some adrpMissingOperand
      else if a = 4 then some ldrExample
      else if a = 8 then some adrpExample
      else if a = 12 then some ldrExample
      else if a = 16 then some brExample
      else none
    readByte := fun _ => 0
    readUInt64LE := fun _ => none }

/-- An environment whose sole candidate's analysis raises. -/
def envRaising : DriverEnv :=
  { doc := docRaising
    hasTextSegment := true
    namedAddresses := [0]
    names0 := fun _ => "sub_a"
    renameRaises := fun _ _ => false }

/-- Witness for the amended C4: a raising candidate's step is a skip, and
the count of a finished raise-free scan equals the successful renames. -/
theorem scan_error_isolation_and_count_witness :
    scanLoop envRaising 8 [0] envRaising.names0 0 = scanLoop envRaising 8 [] envRaising.names0 0 ∧
    (1 : Nat) = 0 + countSuccesses envTail 8 [0x5000] envTail.names0 := by
  constructor
  · exact scan_error_isolation_and_count.1 envRaising 8 0 [] envRaising.names0 0
      (by decide) (by decide) ⟨PyExn.typeError, by decide⟩
  · exact scan_error_isolation_and_count.2 envTail 8 (fun a n => rfl)
      [0x5000] envTail.names0
      (fun a => if a = 0x5000 then "foo()" else envTail.names0 a) 0 1 rfl

/-- C10: a candidate whose current name does not start with `sub_` is
skipped outright — its loop step equals the step over the remaining
candidates, performing no stub matching, selector resolution, or rename —
and its symbol name is unchanged by the entire scan. -/
theorem scan_skips_non_sub_names :
    (∀ (env : DriverEnv) (fuel a : Nat) (rest : List Nat)
      (names : Nat → String) (renamed : Nat),
      pyStartswith (names a).data "sub_".data = false →
      scanLoop env fuel (a :: rest) names renamed = scanLoop env fuel rest names renamed) ∧
    (∀ (env : DriverEnv) (fuel a : Nat),
      pyStartswith (env.names0 a).data "sub_".data = false →
      finalNames (rename_objc_stubs env fuel) a = env.names0 a) := by
  constructor
  · intro env fuel a rest names renamed ha
    simp only [scanLoop]
    rw [if_pos (by simp [ha])]
  · intro env fuel a ha
    unfold rename_objc_stubs
    by_cases hseg : env.hasTextSegment = true
    · rw [if_pos hseg]
      exact scanLoop_preserves_name env fuel env.namedAddresses env.names0 0 a ha
    · rw [if_neg hseg]
      rfl

/-- An environment whose candidate `0x4000` is a genuine resolvable stub
but is named `"main"`, so the scan must leave it alone. -/
def envSkip : DriverEnv :=
  { doc := docExample
    hasTextSegment := true
    namedAddresses := [0x4000]
    names0 := fun a => if a = 0x4000 then "main" else "sub_other"
    renameRaises := fun _ _ => false }

/-- Witness for C10: the stub named `"main"` is skipped and keeps its
name. -/
theorem scan_skips_non_sub_names_witness :
    scanLoop envSkip 8 [0x4000] envSkip.names0 0 = scanLoop envSkip 8 [] envSkip.names0 0 ∧
    finalNames (rename_objc_stubs envSkip 8) 0x4000 = "main" := by
  constructor
  · exact scan_skips_non_sub_names.1 envSkip 8 0x4000 [] envSkip.names0 0 (by decide)
  · have h := scan_skips_non_sub_names.2 envSkip 8 0x4000 (by decide)
    rw [h]
    decide
